import Mathlib

/-!
Verification of the RUGGUARD bot core (src/RUGGUARD_BOT/main.py), as a
shallow embedding in Lean 4.  Python ints are modelled by ℤ / ℕ, Python
floats by exact rationals ℚ, Python sets of strings by `Finset String`,
the module-level cache globals by an explicit `CacheState` threaded
through `get_trusted_accounts`, and the network fetch by an
`Option String` argument (`none` models a `requests.RequestException`,
which includes a non-success HTTP status raised by `raise_for_status`).
String operations (`lower`, `strip`, `splitlines`, substring containment)
are modelled on the character lists of the strings.
-/

/-- Configuration constant `Config.TRIGGER_PHRASE` (main.py line 31). -/
def TRIGGER_PHRASE : String := "riddle me this"

/-- Configuration constant `Config.MIN_TRUSTED_FOLLOWERS` (main.py line 33). -/
def MIN_TRUSTED_FOLLOWERS : ℤ := 3

/-- Constant `CACHE_DURATION_SECONDS` (main.py line 45): cache for one hour. -/
def CACHE_DURATION_SECONDS : ℚ := 3600

/-- Python `str.lower()` modelled character-wise. -/
def lowerStr (s : String) : String := String.mk (s.toList.map Char.toLower)

/-- Whitespace characters removed by Python `str.strip()` (the common ones:
space, tab, newline, carriage return). -/
def isSpaceChar (c : Char) : Bool := c = ' ' ∨ c = '\t' ∨ c = '\n' ∨ c = '\r'

/-- Python `str.strip()`: drop whitespace from both ends. -/
def stripStr (s : String) : String :=
  String.mk ((((s.toList.dropWhile isSpaceChar).reverse).dropWhile isSpaceChar).reverse)

/-- Python `str.splitlines()` on a character list: split at newline
characters (the dominant line terminator; the exotic terminators Python
also recognises are not modelled). -/
def splitLinesAux : List Char → List Char → List (List Char)
  | [], acc => [acc.reverse]
  | c :: rest, acc =>
    if c = '\n' then acc.reverse :: splitLinesAux rest [] else splitLinesAux rest (c :: acc)

/-- Python `str.splitlines()` of a string.  Python emits no trailing empty
line for a trailing terminator; a final empty chunk is dropped to match. -/
def splitLines (s : String) : List String :=
  let chunks := splitLinesAux s.toList []
  (match chunks.getLast? with
   | some [] => chunks.dropLast
   | _ => chunks).map String.mk

/-- Python substring containment `needle in hay` on character lists:
`needle` occurs contiguously in `hay`. -/
def isSubListOf (needle : List Char) : List Char → Bool
  | [] => needle.isEmpty
  | c :: rest => needle.isPrefixOf (c :: rest) || isSubListOf needle rest

/-- The module-level mutable cache of `get_trusted_accounts`
(main.py lines 43-44): `_trusted_accounts_cache` starts as `None`
(modelled by `none`) and `_cache_timestamp` starts as `0`. -/
structure CacheState where
  cache : Option (Finset String)
  timestamp : ℚ
deriving DecidableEq

/-- The initial module state: `_trusted_accounts_cache = None`,
`_cache_timestamp = 0` (main.py lines 43-44). -/
def initialCacheState : CacheState := ⟨none, 0⟩

/-- Python truthiness of `_trusted_accounts_cache`: `None` is falsy and an
empty set is falsy; only a non-empty cached set is truthy (the bare
`if _trusted_accounts_cache` tests on main.py lines 55 and 74). -/
def truthy : Option (Finset String) → Bool
  | none => false
  | some s => decide (s ≠ ∅)

/-- The set comprehension of main.py line 65:
`line.strip().lower() for each line in response.text.splitlines() if
line.strip()` — split into lines, keep the lines that are non-empty after
stripping, strip, lower-case, deduplicate into a set. -/
def parseTrustedList (text : String) : Finset String :=
  ((((splitLines text).filter (fun l => stripStr l ≠ "")).map stripStr).map lowerStr).toFinset

/-- Function `get_trusted_accounts` (main.py lines 47-74), with the global state,
the clock and the network made explicit.  Returns the result set, the
module state after the call, and whether a network fetch was attempted
(`requests.get` reached, main.py line 61).  `fetch = some text` models a
successful HTTP response body; `fetch = none` models a
`requests.RequestException` (network error or non-success status). -/
def get_trusted_accounts (st : CacheState) (now : ℚ) (fetch : Option String) :
    Finset String × CacheState × Bool :=
  if truthy st.cache = true ∧ now - st.timestamp < CACHE_DURATION_SECONDS then
    (st.cache.getD ∅, st, false)
  else
    match fetch with
    | some text =>
      let accounts := parseTrustedList text
      (accounts, ⟨some accounts, now⟩, true)
    | none =>
      ((if truthy st.cache = true then st.cache.getD ∅ else ∅), st, true)

/-- Round-half-to-even of a rational to an integer: the idealisation of
Python `round` applied to an exact value. -/
def roundHalfEven (q : ℚ) : ℤ :=
  if q - ⌊q⌋ < 1/2 then ⌊q⌋
  else if 1/2 < q - ⌊q⌋ then ⌊q⌋ + 1
  else if ⌊q⌋ % 2 = 0 then ⌊q⌋ else ⌊q⌋ + 1

/-- Python `round(x, 2)` (main.py line 115) over exact rationals: round
half-to-even at two decimal places. -/
def pyRound2 (q : ℚ) : ℚ := (roundHalfEven (q * 100) : ℚ) / 100

/-- The `follower_ratio` as computed on main.py line 103:
`follower_count / following_count if following_count > 0 else
float(follower_count)`. -/
def follower_ratio_raw (followers following : ℕ) : ℚ :=
  if following > 0 then (followers : ℚ) / (following : ℚ) else (followers : ℚ)

/-- The raw user record `analyze_user_account` reads from the platform
client (main.py lines 90-103); the account age in days is taken as an
input because `datetime.now` is external to the embedding. -/
structure RawProfile where
  username : String
  name : String
  id : ℕ
  account_age_days : ℤ
  created_at : String
  verified : Bool
  bio : Option String
  followers_count : ℕ
  following_count : ℕ
  tweet_count : ℕ
deriving DecidableEq

/-- The `report["data"]` dictionary built by `analyze_user_account`
(main.py lines 105-132), restricted to the fields the scoring and reply
logic reads. -/
structure ReportData where
  username : String
  name : String
  account_age_days : ℤ
  created_at : String
  is_verified : Bool
  bio : Option String
  followers : ℤ
  following : ℤ
  follower_ratio : ℚ
  tweet_count : ℤ
  is_on_trusted_list : Bool
  vouched_by_count : ℤ
  trusted_check_note : Option String
deriving DecidableEq

/-- The fixed note of main.py line 132. -/
def TRUSTED_CHECK_NOTE : String :=
  "Follower check requires \x27Basic\x27 tier X API access or higher."

/-- The success path of `analyze_user_account` (main.py lines 100-132):
builds the report data from the raw profile and the trusted list returned
by `get_trusted_accounts`.  `follower_ratio` is stored rounded to two
decimal places (`round(follower_ratio, 2)`, main.py line 115). -/
def analyzeData (u : RawProfile) (trusted : Finset String) : ReportData :=
  { username := u.username
    name := u.name
    account_age_days := u.account_age_days
    created_at := u.created_at
    is_verified := u.verified
    bio := u.bio
    followers := (u.followers_count : ℤ)
    following := (u.following_count : ℤ)
    follower_ratio := pyRound2 (follower_ratio_raw u.followers_count u.following_count)
    tweet_count := (u.tweet_count : ℤ)
    is_on_trusted_list := decide (lowerStr u.username ∈ trusted)
    vouched_by_count := if lowerStr u.username ∈ trusted then (trusted.card : ℤ) else 0
    trusted_check_note :=
      if lowerStr u.username ∈ trusted then none else some TRUSTED_CHECK_NOTE }

/-- The trust-score accumulation of `generate_reply` (main.py lines
159-180): the sequential updates of `score` and `reasons`, each `if` of
the source one step, ending with `score = min(score, 100)`.  Returns the
clamped score and the reasons list. -/
def computeScore (d : ReportData) : ℤ × List String :=
  let score0 : ℤ := 0
  let reasons0 : List String := []
  let score1 := if d.account_age_days > 365 then score0 + 25 else score0
  let reasons1 :=
    if d.account_age_days > 365 then reasons0 ++ ["✅ Account age > 1 year"] else reasons0
  let score2 := if d.followers > 1000 then score1 + 15 else score1
  let score3 := if d.follower_ratio > 2 then score2 + 20 else score2
  let reasons3 :=
    if d.follower_ratio > 2 then reasons1 ++ ["✅ Follower/Following ratio > 2"] else reasons1
  let score4 := if d.is_verified = true then score3 + 25 else score3
  let reasons4 :=
    if d.is_verified = true then reasons3 ++ ["✅ Verified Account"] else reasons3
  let score5 :=
    if d.is_on_trusted_list = true then 100
    else if d.vouched_by_count ≥ MIN_TRUSTED_FOLLOWERS then score4 + 50
    else score4
  let reasons5 :=
    if d.is_on_trusted_list = true then reasons4 ++ ["🚀 RUGGUARD Trusted List Member!"]
    else if d.vouched_by_count ≥ MIN_TRUSTED_FOLLOWERS then
      reasons4 ++ ["🔥 Vouched by " ++ toString d.vouched_by_count ++ " trusted accounts!"]
    else reasons4
  (min score5 100, reasons5)

/-- Modelled from the claim, for comparison with `computeScore`: the same
scoring logic with the vouched-by branch (main.py lines 176-178) deleted,
to state that this branch is dead logic for reports produced by
`analyzeData`. -/
def computeScoreNoVouch (d : ReportData) : ℤ × List String :=
  let score0 : ℤ := 0
  let reasons0 : List String := []
  let score1 := if d.account_age_days > 365 then score0 + 25 else score0
  let reasons1 :=
    if d.account_age_days > 365 then reasons0 ++ ["✅ Account age > 1 year"] else reasons0
  let score2 := if d.followers > 1000 then score1 + 15 else score1
  let score3 := if d.follower_ratio > 2 then score2 + 20 else score2
  let reasons3 :=
    if d.follower_ratio > 2 then reasons1 ++ ["✅ Follower/Following ratio > 2"] else reasons1
  let score4 := if d.is_verified = true then score3 + 25 else score3
  let reasons4 :=
    if d.is_verified = true then reasons3 ++ ["✅ Verified Account"] else reasons3
  let score5 := if d.is_on_trusted_list = true then 100 else score4
  let reasons5 :=
    if d.is_on_trusted_list = true then reasons4 ++ ["🚀 RUGGUARD Trusted List Member!"]
    else reasons4
  (min score5 100, reasons5)

/-- The trust-level mapping of `generate_reply` (main.py lines 183-190),
applied to the clamped score. -/
def trustLevel (score : ℤ) : String :=
  if score ≥ 85 then "Very High 🟢"
  else if score ≥ 65 then "High 🟡"
  else if score ≥ 40 then "Medium 🟠"
  else "Low 🔴"

/-- One entry of `tweet.referenced_tweets` as read by `on_tweet`
(main.py lines 231, 236). -/
structure ReferencedTweet where
  type : String
  id : ℕ
deriving DecidableEq

/-- The fields of a stream event that the trigger check of `on_tweet`
reads (main.py lines 227-236).  A `referenced_tweets` of `None` and an
empty list are both falsy in Python, so both are modelled by `[]`. -/
structure StreamTweet where
  text : String
  referenced_tweets : List ReferencedTweet
deriving DecidableEq

/-- Case-insensitive containment test of main.py line 232:
`config.TRIGGER_PHRASE.lower() in tweet.text.lower()`, with Python string
containment modelled as contiguous-sublist containment of the character
lists. -/
def containsTrigger (text : String) : Bool :=
  isSubListOf (lowerStr TRIGGER_PHRASE).toList (lowerStr text).toList

/-- The trigger detection of `on_tweet` (main.py lines 231-236):
`is_reply` holds when `referenced_tweets` is truthy and its first entry
has type `replied_to`; `contains_trigger` is the case-insensitive
substring test; on both holding, the id of `referenced_tweets[0]` is
extracted; otherwise the handler takes no action (`none`). -/
def detect (t : StreamTweet) : Option ℕ :=
  match t.referenced_tweets with
  | [] => none
  | r :: _ =>
    if r.type = "replied_to" ∧ containsTrigger t.text = true then some r.id else none

example : follower_ratio_raw 5000 100 = 50 := by norm_num [follower_ratio_raw]
example : pyRound2 50 = 50 := by norm_num [pyRound2, roundHalfEven]
example : containsTrigger "hey @bot Riddle Me This now" = true := by decide
example : detect ⟨"riddle me this", [⟨"replied_to", 9⟩]⟩ = some 9 := by decide
example : parseTrustedList "Alice \nbob\n\n" = {"alice", "bob"} := by decide
example : splitLines "a\nb\n" = ["a", "b"] := by decide
example : stripStr "  a b " = "a b" := by decide

/-- Claim C1: for every report data with `is_on_trusted_list = true`, the
scoring logic of `generate_reply` produces exactly 100, whatever the other
attributes, and appends the trusted-list-member reason. -/
theorem trusted_list_overrides_score (d : ReportData)
    (h : d.is_on_trusted_list = true) :
    (computeScore d).1 = 100 ∧
    "🚀 RUGGUARD Trusted List Member!" ∈ (computeScore d).2 := by
  simp [computeScore, h]

/-- Witness for C1: a concrete trusted-list member with hostile other
attributes still scores exactly 100 with the trusted-list reason. -/
theorem trusted_list_overrides_score_witness :
    (computeScore
      { username := "alice", name := "Alice", account_age_days := 0,
        created_at := "Jan 2024", is_verified := false, bio := none,
        followers := 0, following := 0, follower_ratio := 0, tweet_count := 0,
        is_on_trusted_list := true, vouched_by_count := 0,
        trusted_check_note := none }).1 = 100 ∧
    "🚀 RUGGUARD Trusted List Member!" ∈
      (computeScore
        { username := "alice", name := "Alice", account_age_days := 0,
          created_at := "Jan 2024", is_verified := false, bio := none,
          followers := 0, following := 0, follower_ratio := 0, tweet_count := 0,
          is_on_trusted_list := true, vouched_by_count := 0,
          trusted_check_note := none }).2 :=
  trusted_list_overrides_score _ rfl

/-- Claim C3: the clamped score produced by the scoring logic of
`generate_reply` always lies in the closed interval [0, 100]. -/
theorem score_in_range (d : ReportData) :
    0 ≤ (computeScore d).1 ∧ (computeScore d).1 ≤ 100 := by
  simp only [computeScore]
  split_ifs <;> omega

/-- Claim C4: the trust-level mapping evaluates its thresholds high to
low with the first match winning, and the boundaries are closed above. -/
theorem tier_thresholds (s : ℤ) :
    (85 ≤ s → trustLevel s = "Very High 🟢") ∧
    (65 ≤ s → s < 85 → trustLevel s = "High 🟡") ∧
    (40 ≤ s → s < 65 → trustLevel s = "Medium 🟠") ∧
    (s < 40 → trustLevel s = "Low 🔴") := by
  unfold trustLevel
  refine ⟨fun h => ?_, fun h1 h2 => ?_, fun h1 h2 => ?_, fun h => ?_⟩ <;>
    split_ifs <;> first | rfl | omega

/-- Witness for C4: the boundary scores 85, 84, 65, 64, 40 and 39 map to
the tiers the claim lists. -/
theorem tier_thresholds_witness :
    trustLevel 85 = "Very High 🟢" ∧ trustLevel 84 = "High 🟡" ∧
    trustLevel 65 = "High 🟡" ∧ trustLevel 64 = "Medium 🟠" ∧
    trustLevel 40 = "Medium 🟠" ∧ trustLevel 39 = "Low 🔴" :=
  ⟨(tier_thresholds 85).1 (by decide),
   (tier_thresholds 84).2.1 (by decide) (by decide),
   (tier_thresholds 65).2.1 (by decide) (by decide),
   (tier_thresholds 64).2.2.1 (by decide) (by decide),
   (tier_thresholds 40).2.2.1 (by decide) (by decide),
   (tier_thresholds 39).2.2.2 (by decide)⟩

/-- The end-to-end scenario profile of C8: age 400 days, 5000 followers,
100 following, unverified, not on the trusted list. -/
def scenarioProfile : RawProfile :=
  { username := "target", name := "Target", id := 7, account_age_days := 400,
    created_at := "Mar 2023", verified := false, bio := none,
    followers_count := 5000, following_count := 100, tweet_count := 100 }

/-- Claim C8: the scenario profile yields ratio 50, score 25+15+20 = 60
with exactly the age and ratio reasons (the followers bonus is silent),
and tier Medium; the same profile verified yields 85 and tier Very High. -/
theorem scenario_e2e :
    (analyzeData scenarioProfile ∅).follower_ratio = 50 ∧
    (computeScore (analyzeData scenarioProfile ∅)).1 = 60 ∧
    (computeScore (analyzeData scenarioProfile ∅)).2 =
      ["✅ Account age > 1 year", "✅ Follower/Following ratio > 2"] ∧
    trustLevel (computeScore (analyzeData scenarioProfile ∅)).1 = "Medium 🟠" ∧
    (computeScore (analyzeData { scenarioProfile with verified := true } ∅)).1 = 85 ∧
    trustLevel
      (computeScore (analyzeData { scenarioProfile with verified := true } ∅)).1 =
      "Very High 🟢" := by
  have hr : pyRound2 (follower_ratio_raw 5000 100) = 50 := by
    norm_num [pyRound2, follower_ratio_raw, roundHalfEven]
  refine ⟨hr, ?_⟩
  simp only [analyzeData, computeScore, scenarioProfile, trustLevel, hr,
    MIN_TRUSTED_FOLLOWERS]
  norm_num [lowerStr]

/-- Claim C9: for every report `analyze_user_account` can produce, the
vouched-by bonus branch of the scoring logic is dead: off the trusted
list the vouch count is always 0, and on the trusted list the overriding
reset branch is taken, so deleting the vouch branch never changes the
result. -/
theorem vouch_branch_dead (u : RawProfile) (trusted : Finset String) :
    ((analyzeData u trusted).is_on_trusted_list = false →
      (analyzeData u trusted).vouched_by_count = 0) ∧
    computeScore (analyzeData u trusted) = computeScoreNoVouch (analyzeData u trusted) := by
  by_cases hm : lowerStr u.username ∈ trusted
  · constructor
    · intro h
      simp [analyzeData, hm] at h
    · simp [computeScore, computeScoreNoVouch, analyzeData, hm]
  · constructor
    · intro _
      simp [analyzeData, hm]
    · simp [computeScore, computeScoreNoVouch, analyzeData, hm, MIN_TRUSTED_FOLLOWERS]

/-- Witness for C9: a concrete profile off a three-member trusted list
gets vouch count 0 and scores identically with and without the vouch
branch. -/
theorem vouch_branch_dead_witness :
    (analyzeData
      { username := "dave", name := "Dave", id := 2, account_age_days := 500,
        created_at := "Jan 2020", verified := false, bio := none,
        followers_count := 10, following_count := 1, tweet_count := 4 }
      {"alice", "bob", "carol"}).vouched_by_count = 0 ∧
    computeScore (analyzeData
      { username := "dave", name := "Dave", id := 2, account_age_days := 500,
        created_at := "Jan 2020", verified := false, bio := none,
        followers_count := 10, following_count := 1, tweet_count := 4 }
      {"alice", "bob", "carol"}) =
    computeScoreNoVouch (analyzeData
      { username := "dave", name := "Dave", id := 2, account_age_days := 500,
        created_at := "Jan 2020", verified := false, bio := none,
        followers_count := 10, following_count := 1, tweet_count := 4 }
      {"alice", "bob", "carol"}) :=
  ⟨(vouch_branch_dead _ _).1 (by decide), (vouch_branch_dead _ _).2⟩

/-- Claim C5 (amended): the analyzer computes the raw ratio as
followers / following when following > 0 and as followers when
following = 0, but stores it rounded to two decimal places, and the
scoring rule "followerRatio > 2" is applied to the stored, rounded value
rather than the raw ratio. -/
theorem ratio_rule_uses_rounded_ratio (u : RawProfile) (trusted : Finset String) :
    (u.following_count = 0 →
      follower_ratio_raw u.followers_count u.following_count = (u.followers_count : ℚ)) ∧
    (0 < u.following_count →
      follower_ratio_raw u.followers_count u.following_count =
        (u.followers_count : ℚ) / (u.following_count : ℚ)) ∧
    (analyzeData u trusted).follower_ratio =
      pyRound2 (follower_ratio_raw u.followers_count u.following_count) ∧
    ("✅ Follower/Following ratio > 2" ∈ (computeScore (analyzeData u trusted)).2 ↔
      pyRound2 (follower_ratio_raw u.followers_count u.following_count) > 2) := by
  refine ⟨fun h => by simp [follower_ratio_raw, h], fun h => by simp [follower_ratio_raw, h],
    rfl, ?_⟩
  by_cases hm : lowerStr u.username ∈ trusted
  · simp only [computeScore, analyzeData, hm, decide_eq_true_eq, MIN_TRUSTED_FOLLOWERS]
    split_ifs <;> simp_all
  · simp only [computeScore, analyzeData, hm, decide_eq_true_eq, MIN_TRUSTED_FOLLOWERS]
    split_ifs <;> simp_all

/-- The profile refuting C5 as stated: 501 followers, 250 following, raw
ratio 2.004, which exceeds 2, but rounds to 2.00. -/
def ratioCexProfile : RawProfile :=
  { username := "user", name := "User", id := 1, account_age_days := 10,
    created_at := "Jan 2020", verified := false, bio := none,
    followers_count := 501, following_count := 250, tweet_count := 0 }

/-- Counterexample to C5 as stated: at followers = 501, following = 250
the raw ratio 501/250 is greater than 2, yet the stored ratio rounds to
exactly 2 and the scoring rule does not fire — so the rule is not applied
to the ratio the claim describes. -/
theorem ratio_rule_cex :
    follower_ratio_raw 501 250 > 2 ∧
    pyRound2 (follower_ratio_raw 501 250) = 2 ∧
    (analyzeData ratioCexProfile ∅).follower_ratio = 2 ∧
    "✅ Follower/Following ratio > 2" ∉ (computeScore (analyzeData ratioCexProfile ∅)).2 := by
  have h1 : follower_ratio_raw 501 250 = 501 / 250 := by norm_num [follower_ratio_raw]
  have h2 : pyRound2 (follower_ratio_raw 501 250) = 2 := by
    rw [h1]
    norm_num [pyRound2, roundHalfEven]
  refine ⟨by rw [h1]; norm_num, h2, h2, ?_⟩
  simp only [computeScore, analyzeData, ratioCexProfile, h2, MIN_TRUSTED_FOLLOWERS]
  norm_num [lowerStr]

/-- Witness for C5 (amended): at 5000 followers and 100 following the raw
ratio is 5000/100, the analyzer stores its two-decimal rounding, and the
ratio reason is emitted exactly when that stored value exceeds 2; at 7
followers and 0 following the raw ratio is the follower count itself. -/
theorem ratio_rule_uses_rounded_ratio_witness :
    follower_ratio_raw 5000 100 = (5000 : ℚ) / 100 ∧
    (analyzeData scenarioProfile ∅).follower_ratio =
      pyRound2 (follower_ratio_raw 5000 100) ∧
    ("✅ Follower/Following ratio > 2" ∈ (computeScore (analyzeData scenarioProfile ∅)).2 ↔
      pyRound2 (follower_ratio_raw 5000 100) > 2) ∧
    follower_ratio_raw 7 0 = (7 : ℚ) :=
  ⟨(ratio_rule_uses_rounded_ratio scenarioProfile ∅).2.1 (by decide),
   (ratio_rule_uses_rounded_ratio scenarioProfile ∅).2.2.1,
   (ratio_rule_uses_rounded_ratio scenarioProfile ∅).2.2.2,
   (ratio_rule_uses_rounded_ratio
      { scenarioProfile with followers_count := 7, following_count := 0 } ∅).1 rfl⟩

/-- The module state after a successful fetch of a blank trusted-list
document at time 0: the cache holds the empty set with a fresh timestamp. -/
def emptyCacheState : CacheState := (get_trusted_accounts initialCacheState 0 (some "\n")).2.1

/-- Counterexample to C2 as stated: after a successful fetch of a blank
document the cache holds an (empty) trusted list fetched at time 0; a
call at time 10 — well inside the TTL, with no intervening failed fetch —
nevertheless attempts a network fetch and returns a different set,
because the bare truthiness test on `_trusted_accounts_cache` treats an
empty cached set like a missing cache. -/
theorem cache_ttl_cex :
    emptyCacheState.cache = some ∅ ∧
    (10 : ℚ) - emptyCacheState.timestamp < CACHE_DURATION_SECONDS ∧
    (get_trusted_accounts emptyCacheState 10 (some "alice")).2.2 = true ∧
    (get_trusted_accounts emptyCacheState 10 (some "alice")).1 ≠ (∅ : Finset String) := by
  have hst : emptyCacheState = ⟨some ∅, 0⟩ := by
    simp [emptyCacheState, get_trusted_accounts, initialCacheState, truthy]
    decide
  rw [hst]
  refine ⟨rfl, by norm_num [CACHE_DURATION_SECONDS], ?_, ?_⟩
  · simp [get_trusted_accounts, truthy]
  · simp only [get_trusted_accounts, truthy]
    decide

/-- Claim C2 (amended): while the cache holds a non-empty trusted list
whose age is below the TTL, `get_trusted_accounts` returns the cached set
unchanged, leaves the state unchanged and attempts no network fetch —
so two such calls return the identical set value. -/
theorem cache_ttl_amended (st : CacheState) (s : Finset String) (now : ℚ)
    (fetch : Option String) (hc : st.cache = some s) (hne : s ≠ ∅)
    (hage : now - st.timestamp < CACHE_DURATION_SECONDS) :
    get_trusted_accounts st now fetch = (s, st, false) := by
  simp [get_trusted_accounts, truthy, hc, hne, hage]

/-- Witness for C2 (amended): a one-account cache fetched at time 0 and
read at time 10 is returned unchanged without a fetch attempt. -/
theorem cache_ttl_amended_witness :
    get_trusted_accounts ⟨some {"alice"}, 0⟩ 10 none =
      ({"alice"}, ⟨some {"alice"}, 0⟩, false) :=
  cache_ttl_amended _ {"alice"} 10 none rfl (by decide)
    (by norm_num [CACHE_DURATION_SECONDS])

/-- Claim C6: when a refresh fetch fails and a previous cache exists, the
prior cached set is returned unchanged with the timestamp not updated, so
any later call attempts the fetch again immediately; with no previous
cache, the failed fetch returns the empty set. -/
theorem cache_fallback (st : CacheState) (s : Finset String) (now now2 : ℚ)
    (f2 : Option String) (hc : st.cache = some s)
    (hmiss : ¬ (truthy st.cache = true ∧ now - st.timestamp < CACHE_DURATION_SECONDS))
    (hle : now ≤ now2) :
    ((get_trusted_accounts st now none).1 = s ∧
     (get_trusted_accounts st now none).2.1 = st ∧
     (get_trusted_accounts st now2 f2).2.2 = true) ∧
    (∀ (st2 : CacheState) (t : ℚ), st2.cache = none →
      (get_trusted_accounts st2 t none).1 = ∅) := by
  have hmiss2 : ¬ (truthy st.cache = true ∧ now2 - st.timestamp < CACHE_DURATION_SECONDS) := by
    intro ⟨ht, hlt⟩
    exact hmiss ⟨ht, lt_of_le_of_lt (by linarith) hlt⟩
  refine ⟨⟨?_, ?_, ?_⟩, ?_⟩
  · by_cases hs : s = ∅
    · subst hs
      simp [get_trusted_accounts, truthy, hc, hmiss]
    · simp only [get_trusted_accounts, truthy, hc, hs, hmiss]
      split_ifs <;> simp_all
  · simp [get_trusted_accounts, hmiss]
  · cases f2 <;> simp [get_trusted_accounts, hmiss2]
  · intro st2 t h2
    simp [get_trusted_accounts, truthy, h2]

/-- Witness for C6: a one-account cache fetched at time 0 survives a
failed refresh at time 5000 unchanged, the call at time 6000 attempts a
fetch again, and a failed fetch with no cache returns the empty set. -/
theorem cache_fallback_witness :
    ((get_trusted_accounts ⟨some {"alice"}, 0⟩ 5000 none).1 = {"alice"} ∧
     (get_trusted_accounts ⟨some {"alice"}, 0⟩ 5000 none).2.1 = ⟨some {"alice"}, 0⟩ ∧
     (get_trusted_accounts ⟨some {"alice"}, 0⟩ 6000 none).2.2 = true) ∧
    (get_trusted_accounts initialCacheState 42 none).1 = ∅ :=
  have h := cache_fallback ⟨some {"alice"}, 0⟩ {"alice"} 5000 6000 none rfl
    (by norm_num [truthy, CACHE_DURATION_SECONDS]) (by norm_num)
  ⟨h.1, h.2 initialCacheState 42 rfl⟩

/-- Claim C10: a failed fetch with no previous cache returns the empty
set while leaving the module state unchanged — the empty fallback is not
stored and the timestamp is not advanced — so every later call attempts a
fresh fetch instead of serving the empty set for a TTL period. -/
theorem cache_miss_no_store (st : CacheState) (now now2 : ℚ) (f2 : Option String)
    (hc : st.cache = none) :
    get_trusted_accounts st now none = (∅, st, true) ∧
    (get_trusted_accounts st now2 f2).2.2 = true := by
  constructor
  · simp [get_trusted_accounts, truthy, hc]
  · cases f2 <;> simp [get_trusted_accounts, truthy, hc]

/-- Witness for C10: from the initial state, a failed fetch at time 7
returns the empty set and leaves the state unchanged, and the following
call at time 8 attempts a fetch. -/
theorem cache_miss_no_store_witness :
    get_trusted_accounts initialCacheState 7 none = (∅, initialCacheState, true) ∧
    (get_trusted_accounts initialCacheState 8 (some "alice")).2.2 = true :=
  cache_miss_no_store initialCacheState 7 8 (some "alice") rfl

/-- The stream event refuting C7 as stated: its text contains the trigger
phrase and its referenced posts include a `replied_to` entry, but that
entry is not first. -/
def quoteReplyTweet : StreamTweet :=
  ⟨"Hey Riddle me this please", [⟨"quoted", 1⟩, ⟨"replied_to", 5⟩]⟩

/-- Counterexample to C7 as stated: this event has a referenced post of
relation type `replied_to` and its text contains the trigger phrase
case-insensitively, yet the detector returns nothing, because the code
inspects only the first `referenced_tweets` entry. -/
theorem trigger_detect_cex :
    (∃ r ∈ quoteReplyTweet.referenced_tweets, r.type = "replied_to") ∧
    containsTrigger quoteReplyTweet.text = true ∧
    detect quoteReplyTweet = none := by
  refine ⟨⟨⟨"replied_to", 5⟩, by decide, rfl⟩, by decide, ?_⟩
  simp only [detect, quoteReplyTweet]
  decide

/-- Claim C7 (amended): the detector fires, returning the id of the first
referenced post, exactly when the FIRST entry of `referenced_tweets` has
relation type `replied_to` and the text contains the trigger phrase as a
case-insensitive substring; in every other case it returns nothing. -/
theorem trigger_detect_iff (t : StreamTweet) (n : ℕ) :
    detect t = some n ↔
      ∃ r rest, t.referenced_tweets = r :: rest ∧ r.type = "replied_to" ∧
        containsTrigger t.text = true ∧ n = r.id := by
  cases h : t.referenced_tweets with
  | nil => simp [detect, h]
  | cons r rest =>
    simp only [detect, h]
    by_cases hcond : r.type = "replied_to" ∧ containsTrigger t.text = true
    · rw [if_pos hcond]
      constructor
      · intro hd
        exact ⟨r, rest, rfl, hcond.1, hcond.2, (Option.some.inj hd).symm⟩
      · rintro ⟨r2, rest2, heq, -, -, hn⟩
        cases heq
        exact congrArg some hn.symm
    · rw [if_neg hcond]
      constructor
      · intro hd
        exact absurd hd (by simp)
      · rintro ⟨r2, rest2, heq, htype, htrig, -⟩
        cases heq
        exact absurd ⟨htype, htrig⟩ hcond

/-- Witness for C7 (amended): a reply event carrying the trigger phrase
fires with the parent id, by the amended characterisation. -/
theorem trigger_detect_iff_witness :
    detect ⟨"please riddle me this", [⟨"replied_to", 9⟩]⟩ = some 9 :=
  (trigger_detect_iff ⟨"please riddle me this", [⟨"replied_to", 9⟩]⟩ 9).mpr
    ⟨⟨"replied_to", 9⟩, [], rfl, rfl, by decide, rfl⟩
